import Mathlib

/-!
# Verification of the sim800L irrigation controller (src/main/main.ino)

Shallow embedding of the control logic of the Arduino firmware
`src/main/main.ino`, together with theorems settling the frozen claims
C1..C10 about it.

Modelling conventions:
* Arduino AVR integer widths are modelled explicitly: `int` is 16-bit two's
  complement, `long` / `unsigned long` are 32-bit, `unsigned int` is 16-bit,
  reproduced with `% 2^w` arithmetic on `Nat`/`Int`.
* `millis()` values and stored reference times are `Nat` (the `% 2^32`
  reduction is applied wherever the C arithmetic applies it).
* The C `float` sensor value `voltage` is modelled as `ℚ`; the claims settled
  here only depend on order comparisons that are exact at the inputs used.
* Byte buffers are modelled as `List Nat` of byte values.  Out-of-bounds
  *reads* of `bufferData` (the `bufferData[bufferIndex - 3]` marker scan can
  read at negative indices at the start of a batch, which is undefined
  behaviour in the source) are modelled as reading the value 0, which can
  never equal a marker character.  Out-of-bounds *writes* are tracked by an
  explicit overflow flag (`oob`) instead of being performed.
-/

namespace Sim800

/-! ## Machine integer helpers (AVR widths) -/

/-- Truncation of an integer to a 16-bit two's-complement `int` (AVR `int`). -/
def toInt16 (i : Int) : Int :=
  let m := i % 65536
  if m < 32768 then m else m - 65536

/-- Truncation of an integer to a 32-bit two's-complement `long` (AVR `long`). -/
def toInt32 (i : Int) : Int :=
  let m := i % 4294967296
  if m < 2147483648 then m else m - 4294967296

/-- Conversion of an integer to a 32-bit `unsigned long` (AVR). -/
def toUInt32 (i : Int) : Nat :=
  (i % 4294967296).toNat

/-- The 32-bit unsigned difference `(now - reference)` used by wraparound-safe
duration comparisons (`unsigned long` subtraction). -/
def uDiff32 (now reference : Nat) : Nat :=
  (((now : Int) - (reference : Int)) % 4294967296).toNat

/-! ## Constants (from the `Constants definition` section of main.ino) -/

def SAMPLE_TIME : Int := 1000
def TIME_BETWEEN_IRRIGATIONS1 : Nat := 2000
def TIME_BETWEEN_IRRIGATIONS2 : Nat := 2000
def BUTTON_SAFETY_TIME1 : Int := 10000
def BUTTON_SAFETY_TIME2 : Int := 10000
def EFFECTIVE_IRRIGATION_TIME1 : Nat := 7000
def EFFECTIVE_IRRIGATION_TIME2 : Nat := 7000
def HUMIDITY_THRESHOLD : Int := 720
def TEMPERATURE_THRESHOLD : Int := 980
def VOLTAGE_THRESHOLD : ℚ := 6
def BUFFER_SIZE : Nat := 127

/-! ## Environmental safety gate

The disarm decision is the condition of the `if` at main.ino:280:
`humidity > HUMIDITY_THRESHOLD || voltage < VOLTAGE_THRESHOLD ||
 temperature < TEMPERATURE_THRESHOLD || closeRelayRequested ||
 buttonBrokenFlag1 || buttonBrokenFlag2`. -/

/-- The condition of the safety `if` at main.ino:280 (true = shut down). -/
def shutdownCondition (humidity temperature : Int) (voltage : ℚ)
    (closeRelayRequested buttonBrokenFlag1 buttonBrokenFlag2 : Bool) : Bool :=
  decide (humidity > HUMIDITY_THRESHOLD) || decide (voltage < VOLTAGE_THRESHOLD) ||
    decide (temperature < TEMPERATURE_THRESHOLD) || closeRelayRequested ||
    buttonBrokenFlag1 || buttonBrokenFlag2

/-- The derived "armed" decision of the code: the negation of the shutdown
condition at main.ino:280. -/
def armedCode (humidity temperature : Int) (voltage : ℚ)
    (closeRelayRequested buttonBrokenFlag1 buttonBrokenFlag2 : Bool) : Bool :=
  !(shutdownCondition humidity temperature voltage closeRelayRequested
      buttonBrokenFlag1 buttonBrokenFlag2)

/-- The "armed" decision as the spec's words of claim C3 state it: humidity
strictly below its threshold, temperature strictly above, voltage strictly
above, no pending relay-close command, no broken-button flag.  Stated from the
spec for comparison with `armedCode`; readings equal to a threshold are on the
disarmed side here. -/
def armedSpecStrict (humidity temperature : Int) (voltage : ℚ)
    (closeRelayRequested buttonBrokenFlag1 buttonBrokenFlag2 : Bool) : Bool :=
  decide (humidity < HUMIDITY_THRESHOLD) && decide (temperature > TEMPERATURE_THRESHOLD) &&
    decide (voltage > VOLTAGE_THRESHOLD) && !closeRelayRequested &&
    !buttonBrokenFlag1 && !buttonBrokenFlag2

/-! ## Main-cycle tick: valve/relay section (main.ino lines 280-364) -/

/-- Controller state touched by the valve/relay section of `loop`. -/
structure CtrlState where
  valveOpen1 : Bool
  valveOpen2 : Bool
  relayOn : Bool
  irrigationStartTime1 : Nat
  irrigationStartTime2 : Nat
  remoteIrrigationPending1 : Bool
  remoteIrrigationPending2 : Bool
deriving DecidableEq, Repr

/-- Externally visible actions of one tick, in program order. -/
inductive Act where
  | closeValve (valveId : Nat)
  | openValve (valveId : Nat)
  | relayOff
  | relayPowerOn
  | irrigationConfirmationSMS (valveId : Nat)
deriving DecidableEq, Repr

/-- The valve/relay section of `loop` (main.ino:280-364).  Returns the updated
state and the list of performed actions in program order.  `buttonPressed1/2`
are the logical pressed signals computed at lines 245-267. -/
def controlTick (now : Nat) (humidity temperature : Int) (voltage : ℚ)
    (closeRelayRequested buttonBrokenFlag1 buttonBrokenFlag2 : Bool)
    (buttonPressed1 buttonPressed2 : Bool) (s : CtrlState) : CtrlState × List Act :=
  if shutdownCondition humidity temperature voltage closeRelayRequested
      buttonBrokenFlag1 buttonBrokenFlag2 then
    -- lines 282-301: force the valves closed, then cut the relay
    let closeActs1 : List Act := if s.valveOpen1 then [Act.closeValve 1] else []
    let closeActs2 : List Act := if s.valveOpen2 then [Act.closeValve 2] else []
    let relayActs : List Act := if s.relayOn then [Act.relayOff] else []
    ({ s with valveOpen1 := false, valveOpen2 := false, relayOn := false },
      closeActs1 ++ closeActs2 ++ relayActs)
  else
    -- lines 305-311: energize the relay if it was off
    let relayActs : List Act := if !s.relayOn then [Act.relayPowerOn] else []
    -- lines 314-330: start irrigation 1
    let start1 : Bool :=
      (buttonPressed1 || s.remoteIrrigationPending1) &&
        decide (uDiff32 now s.irrigationStartTime1 ≥
          EFFECTIVE_IRRIGATION_TIME1 + TIME_BETWEEN_IRRIGATIONS1) && !s.valveOpen1
    let startActs1 : List Act :=
      if start1 then
        Act.openValve 1 ::
          (if s.remoteIrrigationPending1 then [Act.irrigationConfirmationSMS 1] else [])
      else []
    let irrigationStartTime1 := if start1 then now else s.irrigationStartTime1
    let valveOpen1 := if start1 then true else s.valveOpen1
    let remotePending1 := if start1 then false else s.remoteIrrigationPending1
    -- lines 333-337: stop irrigation 1 after the effective time
    let stop1 : Bool :=
      decide (uDiff32 now irrigationStartTime1 ≥ EFFECTIVE_IRRIGATION_TIME1) && valveOpen1
    let stopActs1 : List Act := if stop1 then [Act.closeValve 1] else []
    let valveOpen1 := if stop1 then false else valveOpen1
    -- lines 339-356: start irrigation 2
    let start2 : Bool :=
      (buttonPressed2 || s.remoteIrrigationPending2) &&
        decide (uDiff32 now s.irrigationStartTime2 ≥
          EFFECTIVE_IRRIGATION_TIME2 + TIME_BETWEEN_IRRIGATIONS2) && !s.valveOpen2
    let startActs2 : List Act :=
      if start2 then
        Act.openValve 2 ::
          (if s.remoteIrrigationPending2 then [Act.irrigationConfirmationSMS 2] else [])
      else []
    let irrigationStartTime2 := if start2 then now else s.irrigationStartTime2
    let valveOpen2 := if start2 then true else s.valveOpen2
    let remotePending2 := if start2 then false else s.remoteIrrigationPending2
    -- lines 359-363: stop irrigation 2 after the effective time
    let stop2 : Bool :=
      decide (uDiff32 now irrigationStartTime2 ≥ EFFECTIVE_IRRIGATION_TIME2) && valveOpen2
    let stopActs2 : List Act := if stop2 then [Act.closeValve 2] else []
    let valveOpen2 := if stop2 then false else valveOpen2
    ({ valveOpen1 := valveOpen1, valveOpen2 := valveOpen2, relayOn := true,
       irrigationStartTime1 := irrigationStartTime1,
       irrigationStartTime2 := irrigationStartTime2,
       remoteIrrigationPending1 := remotePending1,
       remoteIrrigationPending2 := remotePending2 },
      relayActs ++ startActs1 ++ stopActs1 ++ startActs2 ++ stopActs2)

/-- The `Idle/Cooldown → Running` guard as claim C5 states it (spec §4.3):
trigger asserted, and either the elapsed time since `irrigationStartTime`
reaches the effective duration plus the inter-irrigation interval or
`irrigationStartTime` still holds the never-started sentinel 0.  Stated from
the spec's words for comparison with the guard inside `controlTick`. -/
def startPermittedSpec (now irrigationStartTime : Nat) (trigger valveOpen : Bool) : Bool :=
  trigger &&
    (decide (uDiff32 now irrigationStartTime ≥
        EFFECTIVE_IRRIGATION_TIME1 + TIME_BETWEEN_IRRIGATIONS1) ||
      decide (irrigationStartTime = 0)) && !valveOpen

/-! ## Button failure detection (main.ino:371-440 and the wrapper at 245-267) -/

/-- Per-button state: the globals `wasButtonPressedN`, `buttonPressedStartTimeN`
(`unsigned long`) and `buttonBrokenFlagN` for one button. -/
structure BtnState where
  wasButtonPressed : Bool
  buttonPressedStartTime : Nat
  buttonBrokenFlag : Bool
deriving DecidableEq, Repr

/-- `checkButtonStatus` (main.ino:371-440) for one button.  `physPressed` is
`!digitalRead(buttonPin)`; `millisNow` is the value `millis()` returns inside
the function.  Note the source truncates `millis()` into an `int`
(`int currentMillis = millis()` at line 406) and the elapsed time into an
`int` (line 418); both truncations are reproduced.  Returns the updated state
and the `buttonPressed` result. -/
def checkButtonStatus (millisNow : Nat) (physPressed : Bool)
    (buttonSafetyTime : Int) (s : BtnState) : BtnState × Bool :=
  if physPressed then
    let currentMillis : Int := toInt16 (millisNow : Int)
    if !s.wasButtonPressed then
      ({ s with wasButtonPressed := true,
                buttonPressedStartTime := toUInt32 currentMillis }, true)
    else
      let buttonPressedElapsedTime : Int :=
        toInt16 (toUInt32 (currentMillis - (s.buttonPressedStartTime : Int)))
      if buttonPressedElapsedTime ≥ buttonSafetyTime then
        -- sets the broken flag, forces the result to false, sends the alert
        ({ s with buttonBrokenFlag := true }, false)
      else
        (s, true)
  else
    ({ s with wasButtonPressed := false }, false)

/-- The per-tick logical pressed signal (main.ino:245-267): if the broken flag
is set the physical input is ignored and the signal is false, otherwise
`checkButtonStatus` runs. -/
def tickButton (millisNow : Nat) (physPressed : Bool) (s : BtnState) : BtnState × Bool :=
  if s.buttonBrokenFlag then (s, false)
  else checkButtonStatus millisNow physPressed BUTTON_SAFETY_TIME1 s

/-- Iterate `tickButton` over a list of sampling ticks (pairs of `millis()`
value and physical input), collecting the logical pressed signals. -/
def runButtonTicks (s : BtnState) : List (Nat × Bool) → BtnState × List Bool
  | [] => (s, [])
  | (m, p) :: rest =>
    let r := tickButton m p s
    let rr := runButtonTicks r.1 rest
    (rr.1, r.2 :: rr.2)

/-! ## Flow totalizer: interleaving of the ISR with the sampling code

`countPulses` (main.ino:483-486) runs in interrupt context and performs
`pulsesCount++` on the `volatile unsigned int` counter.  The sampling tick
(main.ino:202-204) performs two separate accesses: it *reads* `pulsesCount`
to compute the flow, then *writes* `pulsesCount = 0`.  The interrupt can fire
between the two.  Each shared-memory access is one atomic event here. -/

inductive FlowEv where
  | pulse
  | sampleRead
  | sampleReset
deriving DecidableEq, Repr

/-- Shared state: the pulse counter (16-bit `unsigned int`) and the value the
sampling code captured with its read (`none` before the read). -/
structure FlowState where
  pulsesCount : Nat
  captured : Option Nat
deriving DecidableEq, Repr

/-- One shared-memory access: the ISR increment (main.ino:485), the sampling
read (main.ino:202) or the sampling reset (main.ino:204). -/
def flowStep (s : FlowState) : FlowEv → FlowState
  | FlowEv.pulse => { s with pulsesCount := (s.pulsesCount + 1) % 65536 }
  | FlowEv.sampleRead => { s with captured := some s.pulsesCount }
  | FlowEv.sampleReset => { s with pulsesCount := 0 }

/-- Run an interleaving of ISR and sampling accesses. -/
def flowRun (s : FlowState) (evs : List FlowEv) : FlowState :=
  evs.foldl flowStep s

/-- An interleaving in which the second pulse's interrupt fires between the
sampling read (line 202) and the reset (line 204). -/
def lostPulseTrace : List FlowEv :=
  [FlowEv.pulse, FlowEv.sampleRead, FlowEv.pulse, FlowEv.sampleReset]

/-! ## Duration comparisons (claim C8) -/

/-- The sampling-period check of `loop` (main.ino:194-197):
`long currentMillis = millis(); int dt = currentMillis - prevMeasurementTime;
if (dt >= SAMPLE_TIME || currentMillis == 0)`.  The difference is computed in
`unsigned long` and then truncated into the 16-bit `int dt`. -/
def samplePeriodCheck (millisNow prevMeasurementTime : Nat) : Bool :=
  let currentMillis : Int := toInt32 (millisNow : Int)
  let dt : Int := toInt16 (toUInt32 (currentMillis - (prevMeasurementTime : Int)))
  decide (dt ≥ SAMPLE_TIME) || decide (currentMillis = 0)

/-- The cooldown check of `loop` (main.ino:317):
`(currentMillis - irrigationStartTime1) >= (EFFECTIVE_IRRIGATION_TIME1 +
TIME_BETWEEN_IRRIGATIONS1)`, evaluated in `unsigned long`. -/
def cooldownCheck (millisNow irrigationStartTime : Nat) : Bool :=
  let currentMillis : Int := toInt32 (millisNow : Int)
  decide (toUInt32 (currentMillis - (irrigationStartTime : Int)) ≥
    EFFECTIVE_IRRIGATION_TIME1 + TIME_BETWEEN_IRRIGATIONS1)

/-- The EEPROM persistence-interval check of `loop` (main.ino:222):
`(currentMillis - prevEepromWriteTime) / 60000 >= EEPROM_WRITE_SAMPLE_TIME`,
evaluated in `unsigned long`. -/
def persistIntervalCheck (millisNow prevEepromWriteTime : Nat) : Bool :=
  let currentMillis : Int := toInt32 (millisNow : Int)
  decide (toUInt32 (currentMillis - (prevEepromWriteTime : Int)) / 60000 ≥ 1440)

/-! ## SMS protocol parser (`readSIM800Data`, main.ino:585-663) -/

/-- Byte values of a string literal. -/
def strBytes (s : String) : List Nat :=
  s.data.map Char.toNat

/-- The marker literal scanned for at main.ino:598-602: the bytes of `CMT:`. -/
def markerBytes : List Nat := [67, 77, 84, 58]

/-- A read of `bufferData[i]`.  Indices past the written region read the
memset-cleared value 0; negative indices (undefined behaviour in the source)
are modelled as reading 0 as well, a value that never matches a marker
character. -/
def rdBuf (buf : List Nat) (i : Int) : Nat :=
  if i < 0 then 0 else buf.getD i.toNat 0

/-- In-batch parser state: the globals `bufferData` (with
`bufferIndex = buf.length`), `cmtOk`, `cmtIndex`, `msgOk`, `senderNum`,
`message` (with `msgIndex = message.length` once reset), plus an `oob` flag
recording that some write landed outside its buffer's bounds
(`bufferData[127]`, `senderNum[14]` or `message[100]` onwards). -/
structure PState where
  buf : List Nat
  cmtOk : Bool
  cmtIndex : Nat
  msgOk : Bool
  senderNum : List Nat
  message : List Nat
  oob : Bool
deriving DecidableEq, Repr

/-- The marker test at main.ino:598-602: not already parsing a sender, the
previous three buffer bytes read `C`, `M`, `T` and the current byte is `:`.
The reads go through `bufferData` exactly as in the source (the current byte
has just been stored at `bufferData[bufferIndex]`). -/
def markerHitB (s : PState) (b : Nat) : Bool :=
  !s.cmtOk &&
    (rdBuf (s.buf ++ [b]) ((s.buf.length : Int) - 3) == 67) &&
    (rdBuf (s.buf ++ [b]) ((s.buf.length : Int) - 2) == 77) &&
    (rdBuf (s.buf ++ [b]) ((s.buf.length : Int) - 1) == 84) &&
    (b == 58)

/-- Processing of one received byte: the body of the `while` loop at
main.ino:592-641.  The byte is stored in `bufferData` (write index
`s.buf.length`), the marker scan runs (lines 598-606), then sender parsing
(lines 611-623, writing `senderNum[cmtIndex]` for every byte other than
space, double quote and colon, and ending the sender on the first delimiter
after at least one copied byte), then message-start detection (lines 626-631)
and message parsing (lines 634-638).  `oob` records any write whose index is
outside its array (`bufferData[127]`, `senderNum[14]`, `message[100]`
onwards). -/
def procByte (s : PState) (b : Nat) : PState :=
  let isDelim : Bool := (b == 32) || (b == 34) || (b == 58)
  let hit : Bool := markerHitB s b
  -- marker scan (lines 598-606): reset the sender scratch state on a hit
  let cmtOk1 := if hit then true else s.cmtOk
  let sender1 := if hit then ([] : List Nat) else s.senderNum
  let cmtIndex1 := if hit then 0 else s.cmtIndex
  -- sender parsing (lines 611-623)
  let senderWrite := cmtOk1 && !isDelim
  let cmtOk2 := if cmtOk1 && isDelim && decide (0 < cmtIndex1) then false else cmtOk1
  let sender2 := if senderWrite then sender1 ++ [b] else sender1
  let cmtIndex2 := if senderWrite then cmtIndex1 + 1 else cmtIndex1
  -- message start (lines 626-631)
  let msgStart := !cmtOk2 && decide (0 < cmtIndex2) && !s.msgOk
  let msgOk1 := if msgStart then true else s.msgOk
  let message1 := if msgStart then ([] : List Nat) else s.message
  -- message parsing (lines 634-638)
  let message2 := if msgOk1 then message1 ++ [b] else message1
  let oobW : Bool := decide (BUFFER_SIZE ≤ s.buf.length)
    || (senderWrite && decide (14 ≤ cmtIndex1))
    || (msgOk1 && decide (100 ≤ message1.length))
  { buf := s.buf ++ [b], cmtOk := cmtOk2, cmtIndex := cmtIndex2, msgOk := msgOk1,
    senderNum := sender2, message := message2, oob := s.oob || oobW }

/-- Pending-request flags set by command dispatch. -/
structure Flags where
  sendMeasurements : Bool
  remoteIrrigationPending1 : Bool
  remoteIrrigationPending2 : Bool
  closeRelayRequested : Bool
deriving DecidableEq, Repr

/-- `isPrefixB pat l` : `pat` is a leading run of `l` (byte-wise). -/
def isPrefixB : List Nat → List Nat → Bool
  | [], _ => true
  | _ :: _, [] => false
  | a :: as, b :: bs => (a == b) && isPrefixB as bs

/-- `strstrB pat hay` : the C `strstr(hay, pat) != NULL` substring test used by
`evaluateSmsCommand` (main.ino:669-687). -/
def strstrB (pat : List Nat) : List Nat → Bool
  | [] => isPrefixB pat []
  | h :: t => isPrefixB pat (h :: t) || strstrB pat t

/-- `evaluateSmsCommand` (main.ino:666-693): substring match of the message
against `ESTADO`, `RIEGO1`, `RIEGO2`, `CERRAR`; each match sets its flag (the
`CERRAR` match also queues the relay-close confirmation reply). -/
def evaluateSmsCommand (message : List Nat) (f : Flags) : Flags :=
  let f := if strstrB (strBytes "ESTADO") message then
    { f with sendMeasurements := true } else f
  let f := if strstrB (strBytes "RIEGO1") message then
    { f with remoteIrrigationPending1 := true } else f
  let f := if strstrB (strBytes "RIEGO2") message then
    { f with remoteIrrigationPending2 := true } else f
  if strstrB (strBytes "CERRAR") message then
    { f with closeRelayRequested := true } else f

/-- The parser state that persists across batches: the `senderNum` and
`message` globals and the pending-request flags. -/
structure GsmState where
  sender : List Nat
  message : List Nat
  flags : Flags
deriving DecidableEq, Repr

/-- Parser state at the start of one batch: `bufferData` cleared and
`bufferIndex = 0` (lines 651-652 of the previous batch / initialization),
`cmtOk = msgOk = false` (lines 653-654), `cmtIndex = 0` (line 659 or initial
value), while `senderNum` and `message` persist. -/
def initPState (gs : GsmState) : PState :=
  { buf := [], cmtOk := false, cmtIndex := 0, msgOk := false,
    senderNum := gs.sender, message := gs.message, oob := false }

/-- One batch of `readSIM800Data` (main.ino:585-663) over the received bytes:
the `while` loop, then the end-of-batch cleanup, then — only when a sender was
parsed (`cmtIndex > 0`, line 657) — command dispatch.  Returns the new
persistent state and whether any buffer write was out of bounds. -/
def readSIM800Data (bytes : List Nat) (gs : GsmState) : GsmState × Bool :=
  let s := bytes.foldl procByte (initPState gs)
  if 0 < s.cmtIndex then
    ({ sender := s.senderNum, message := s.message,
       flags := evaluateSmsCommand s.message gs.flags }, s.oob)
  else
    ({ sender := s.senderNum, message := s.message, flags := gs.flags }, s.oob)

/-! ## Outbound message destinations (claim C10) -/

/-- The initial contents of `senderNum`: `initializeSIM800` stores the
configured `PHONE_NUMBER` there (main.ino:547). -/
def senderNumInit : List Nat := strBytes "+34605521505"

/-- Destination of the status reply: `sendMeasurementsSMS` passes `senderNum`
to `sendSMS` (main.ino:708). -/
def destMeasurementsSMS (senderNum : List Nat) : List Nat := senderNum

/-- Destination of the irrigation confirmation: `sendIrrigationConfirmationSMS`
passes `senderNum` to `sendSMS` for either valve (main.ino:728-729). -/
def destIrrigationConfirmationSMS (senderNum : List Nat) (_valveId : Nat) :
    List Nat := senderNum

/-- Destination of the relay-close confirmation:
`sendCloseRelayConfirmationSMS` passes `senderNum` to `sendSMS`
(main.ino:743). -/
def destCloseRelayConfirmationSMS (senderNum : List Nat) : List Nat := senderNum

/-- The persistent parser state right after startup: `senderNum` holds the
configured phone number (main.ino:547), `message` is empty, no request flag is
set. -/
def initialGsmState : GsmState :=
  { sender := senderNumInit, message := [], flags := ⟨false, false, false, false⟩ }

/-- The inbound byte sequence of claim C9:
`+CMT: "+34605521505","","22/02/04" \r\n RIEGO,MEASUREMENTS\r\n`. -/
def c9input : List Nat :=
  strBytes "+CMT: \"+34605521505\",\"\",\"22/02/04\" \r\n RIEGO,MEASUREMENTS\r\n"

/-! ## Parser lemmas -/

lemma isPrefixB_self_append (l r : List Nat) : isPrefixB l (l ++ r) = true := by
  induction l with
  | nil => simp [isPrefixB]
  | cons a as ih => simp [isPrefixB, ih]

lemma strstrB_of_prefixB (pat l : List Nat) (h : isPrefixB pat l = true) :
    strstrB pat l = true := by
  cases l with
  | nil => exact h
  | cons c cs => simp only [strstrB, h, Bool.true_or]

lemma strstrB_of_decomp (pat pre post : List Nat) :
    strstrB pat (pre ++ pat ++ post) = true := by
  induction pre with
  | nil =>
    rw [List.nil_append]
    exact strstrB_of_prefixB _ _ (isPrefixB_self_append _ _)
  | cons a as ih =>
    have hc : (a :: as) ++ pat ++ post = a :: (as ++ pat ++ post) := by simp
    rw [hc, strstrB, ih, Bool.or_true]

/-- Any list of length at least 3 ends in three elements. -/
lemma exists_concat3 (l : List Nat) (h : 3 ≤ l.length) :
    ∃ l3 a b c, l = l3 ++ [a, b, c] := by
  rcases l.eq_nil_or_concat with rfl | ⟨l1, c, rfl⟩
  · simp at h
  rcases l1.eq_nil_or_concat with rfl | ⟨l2, b, rfl⟩
  · simp at h
  rcases l2.eq_nil_or_concat with rfl | ⟨l3, a, rfl⟩
  · simp at h
  exact ⟨l3, a, b, c, by simp⟩

/-- A successful marker test means the bytes stored so far end in `CMT:`. -/
lemma markerHitB_decomp (s : PState) (b : Nat) (h : markerHitB s b = true) :
    ∃ pre, s.buf ++ [b] = pre ++ markerBytes := by
  unfold markerHitB at h
  simp only [Bool.and_eq_true, beq_iff_eq, Bool.not_eq_true'] at h
  obtain ⟨⟨⟨⟨-, hC⟩, hM⟩, hT⟩, hb⟩ := h
  simp only [rdBuf] at hC hM hT
  have h3 : 3 ≤ s.buf.length := by
    by_contra h3
    rw [if_pos (by omega : ((s.buf.length : Int) - 3) < 0)] at hC
    exact absurd hC (by decide)
  obtain ⟨l3, x, y, z, hl⟩ := exists_concat3 s.buf h3
  have hlen : s.buf.length = l3.length + 3 := by simp [hl]
  have hx : x = 67 := by
    have he : ((s.buf.length : Int) - 3).toNat = l3.length := by omega
    rw [if_neg (by omega), he, hl, List.append_assoc,
      List.getD_append_right _ _ _ _ (le_refl _), Nat.sub_self] at hC
    simpa using hC
  have hy : y = 77 := by
    have he : ((s.buf.length : Int) - 2).toNat = l3.length + 1 := by omega
    rw [if_neg (by omega), he, hl, List.append_assoc,
      List.getD_append_right _ _ _ _ (by omega)] at hM
    have h1 : l3.length + 1 - l3.length = 1 := by omega
    rw [h1] at hM
    simpa using hM
  have hz : z = 84 := by
    have he : ((s.buf.length : Int) - 1).toNat = l3.length + 2 := by omega
    rw [if_neg (by omega), he, hl, List.append_assoc,
      List.getD_append_right _ _ _ _ (by omega)] at hT
    have h2 : l3.length + 2 - l3.length = 2 := by omega
    rw [h2] at hT
    simpa using hT
  refine ⟨l3, ?_⟩
  rw [hl, hx, hy, hz, hb]
  simp [markerBytes]

/-- When the marker does not fire and no sender parse is in progress,
`procByte` leaves the sender state alone and just extends the buffer. -/
lemma procByte_preserve (s : PState) (b : Nat) (hok : s.cmtOk = false)
    (hidx : s.cmtIndex = 0) (hfire : markerHitB s b = false) :
    (procByte s b).cmtOk = false ∧ (procByte s b).cmtIndex = 0 ∧
      (procByte s b).senderNum = s.senderNum ∧ (procByte s b).buf = s.buf ++ [b] := by
  simp [procByte, hok, hidx, hfire]

/-- Processing bytes that nowhere contain the `CMT:` marker (relative to the
bytes already buffered) leaves `senderNum` untouched and parses no sender. -/
lemma foldl_no_marker :
    ∀ (rest : List Nat) (s : PState), s.cmtOk = false → s.cmtIndex = 0 →
      strstrB markerBytes (s.buf ++ rest) = false →
      (rest.foldl procByte s).senderNum = s.senderNum ∧
        (rest.foldl procByte s).cmtIndex = 0 := by
  intro rest
  induction rest with
  | nil => intro s _ hidx _; exact ⟨rfl, hidx⟩
  | cons b t ih =>
    intro s hok hidx hsub
    have hfire : markerHitB s b = false := by
      by_contra hfire
      rw [Bool.not_eq_false] at hfire
      obtain ⟨pre, hpre⟩ := markerHitB_decomp s b hfire
      have hdecomp : s.buf ++ b :: t = pre ++ markerBytes ++ t := by
        rw [← List.singleton_append, ← List.append_assoc, hpre]
      rw [hdecomp, strstrB_of_decomp] at hsub
      exact absurd hsub (by decide)
    obtain ⟨h1, h2, h3, h4⟩ := procByte_preserve s b hok hidx hfire
    have hsub2 : strstrB markerBytes ((procByte s b).buf ++ t) = false := by
      rw [h4, List.append_assoc, List.singleton_append]
      exact hsub
    have := ih (procByte s b) h1 h2 hsub2
    rw [List.foldl_cons]
    exact ⟨by rw [this.1, h3], this.2⟩

/-! ## Overflow lemmas (claim C7) -/

lemma procByte_buf_length (s : PState) (b : Nat) :
    (procByte s b).buf.length = s.buf.length + 1 := by
  simp [procByte]

lemma procByte_oob_mono (s : PState) (b : Nat) (h : s.oob = true) :
    (procByte s b).oob = true := by
  simp [procByte, h]

lemma procByte_oob_of_full (s : PState) (b : Nat) (h : BUFFER_SIZE ≤ s.buf.length) :
    (procByte s b).oob = true := by
  simp [procByte, h]

lemma foldl_oob_mono :
    ∀ (bytes : List Nat) (s : PState), s.oob = true →
      (bytes.foldl procByte s).oob = true := by
  intro bytes
  induction bytes with
  | nil => intro s h; exact h
  | cons b t ih =>
    intro s h
    rw [List.foldl_cons]
    exact ih _ (procByte_oob_mono s b h)

lemma foldl_oob_overflow :
    ∀ (bytes : List Nat) (s : PState), bytes ≠ [] →
      BUFFER_SIZE < s.buf.length + bytes.length →
      (bytes.foldl procByte s).oob = true := by
  intro bytes
  induction bytes with
  | nil => intro s hne _; exact absurd rfl hne
  | cons b t ih =>
    intro s _ h
    rw [List.foldl_cons]
    by_cases hfull : BUFFER_SIZE ≤ s.buf.length
    · exact foldl_oob_mono t _ (procByte_oob_of_full s b hfull)
    · have hne2 : t ≠ [] := by
        intro ht
        rw [ht] at h
        simp at h
        omega
      refine ih _ hne2 ?_
      rw [procByte_buf_length]
      simp at h ⊢
      omega

/-! ## Claims -/

/-- C1: whenever the armed decision is false at the start of a sampling tick
(a sensor reading outside the armed envelope, a pending relay-close request,
or a broken-button flag), the tick closes every open valve and de-energizes
the safety relay within that same tick, and in the emitted action sequence
every valve close happens before the relay is cut — no valve is closed after
relay power is removed. -/
theorem shutdown_closes_valves_before_relay
    (now : Nat) (humidity temperature : Int) (voltage : ℚ)
    (closeReq bb1 bb2 btn1 btn2 : Bool) (s : CtrlState)
    (hd : shutdownCondition humidity temperature voltage closeReq bb1 bb2 = true) :
    (controlTick now humidity temperature voltage closeReq bb1 bb2 btn1 btn2 s).1.valveOpen1
        = false ∧
    (controlTick now humidity temperature voltage closeReq bb1 bb2 btn1 btn2 s).1.valveOpen2
        = false ∧
    (controlTick now humidity temperature voltage closeReq bb1 bb2 btn1 btn2 s).1.relayOn
        = false ∧
    (s.valveOpen1 = true → Act.closeValve 1 ∈
      (controlTick now humidity temperature voltage closeReq bb1 bb2 btn1 btn2 s).2) ∧
    (s.valveOpen2 = true → Act.closeValve 2 ∈
      (controlTick now humidity temperature voltage closeReq bb1 bb2 btn1 btn2 s).2) ∧
    (s.relayOn = true → Act.relayOff ∈
      (controlTick now humidity temperature voltage closeReq bb1 bb2 btn1 btn2 s).2) ∧
    ∃ l₁ l₂,
      (controlTick now humidity temperature voltage closeReq bb1 bb2 btn1 btn2 s).2
          = l₁ ++ l₂ ∧
        (∀ a ∈ l₁, a ≠ Act.relayOff) ∧ (∀ a ∈ l₂, ∀ n, a ≠ Act.closeValve n) := by
  refine ⟨?_, ?_, ?_, ?_, ?_, ?_,
    (if s.valveOpen1 then [Act.closeValve 1] else []) ++
      (if s.valveOpen2 then [Act.closeValve 2] else []),
    (if s.relayOn then [Act.relayOff] else []), ?_, ?_, ?_⟩ <;>
    cases hv1 : s.valveOpen1 <;> cases hv2 : s.valveOpen2 <;> cases hr : s.relayOn <;>
      simp [controlTick, hd, hv1, hv2, hr]

/-- Witness for C1 at a concrete disarmed input (humidity over threshold, both
valves open, relay energized). -/
theorem shutdown_closes_valves_before_relay_witness :
    shutdownCondition 800 1000 7 false false false = true ∧
    ((controlTick 5000 800 1000 7 false false false false false
        ⟨true, true, true, 0, 0, false, false⟩).1.valveOpen1 = false ∧
      (controlTick 5000 800 1000 7 false false false false false
        ⟨true, true, true, 0, 0, false, false⟩).1.valveOpen2 = false ∧
      (controlTick 5000 800 1000 7 false false false false false
        ⟨true, true, true, 0, 0, false, false⟩).1.relayOn = false ∧
      ((⟨true, true, true, 0, 0, false, false⟩ : CtrlState).valveOpen1 = true →
        Act.closeValve 1 ∈ (controlTick 5000 800 1000 7 false false false false false
          ⟨true, true, true, 0, 0, false, false⟩).2) ∧
      ((⟨true, true, true, 0, 0, false, false⟩ : CtrlState).valveOpen2 = true →
        Act.closeValve 2 ∈ (controlTick 5000 800 1000 7 false false false false false
          ⟨true, true, true, 0, 0, false, false⟩).2) ∧
      ((⟨true, true, true, 0, 0, false, false⟩ : CtrlState).relayOn = true →
        Act.relayOff ∈ (controlTick 5000 800 1000 7 false false false false false
          ⟨true, true, true, 0, 0, false, false⟩).2) ∧
      ∃ l₁ l₂,
        (controlTick 5000 800 1000 7 false false false false false
            ⟨true, true, true, 0, 0, false, false⟩).2 = l₁ ++ l₂ ∧
          (∀ a ∈ l₁, a ≠ Act.relayOff) ∧ (∀ a ∈ l₂, ∀ n, a ≠ Act.closeValve n)) :=
  ⟨by decide, shutdown_closes_valves_before_relay 5000 800 1000 7 false false false
    false false ⟨true, true, true, 0, 0, false, false⟩ (by decide)⟩

/-- C2: the claim says the read-and-reset of `pulsesCount` behaves as a single
atomic exchange, losing no pulse that completes before the sample.  The code
performs the read (main.ino:202) and the reset (main.ino:204) as two separate
accesses, so in the interleaving `lostPulseTrace` — where the flow-sensor
interrupt fires between read and reset — two pulses complete before the
sample-and-reset finishes, yet the sample captures only one and the counter is
left at zero: one pulse is lost.  This theorem evaluates the code's model at
that failing interleaving. -/
theorem pulse_lost_between_read_and_reset :
    (lostPulseTrace.filter fun e => decide (e = FlowEv.pulse)).length = 2 ∧
    (flowRun ⟨0, none⟩ lostPulseTrace).captured = some 1 ∧
    (flowRun ⟨0, none⟩ lostPulseTrace).pulsesCount = 0 := by
  decide

/-- C3 counterexample: the claim says readings exactly equal to a threshold
leave the system disarmed (humidity equal to its threshold is not "below" it).
At the boundary snapshot (humidity = 720, temperature = 980, voltage = 6) the
code's decision at main.ino:280 arms the system, while the claim's strict
reading disarms it. -/
theorem armed_at_thresholds_boundary :
    armedCode 720 980 6 false false false = true ∧
    armedSpecStrict 720 980 6 false false false = false := by
  decide

/-- C3 amended: the code is armed iff humidity is at most its threshold,
temperature at least its threshold, voltage at least its threshold, no
relay-close command is pending, and no broken-button flag is set — boundary
readings equal to a threshold are on the armed side. -/
theorem armedCode_iff_nonstrict (humidity temperature : Int) (voltage : ℚ)
    (closeReq bb1 bb2 : Bool) :
    armedCode humidity temperature voltage closeReq bb1 bb2 = true ↔
      humidity ≤ HUMIDITY_THRESHOLD ∧ TEMPERATURE_THRESHOLD ≤ temperature ∧
        VOLTAGE_THRESHOLD ≤ voltage ∧ closeReq = false ∧ bb1 = false ∧ bb2 = false := by
  simp [armedCode, shutdownCondition, not_or, not_lt]
  tauto

/-- C4: once a circuit's `buttonBroken` flag is set it is never cleared while
powered, and the logical pressed signal computed for that circuit is false on
every subsequent sampling tick, whatever the physical input reads. -/
theorem buttonBroken_sticky (s : BtnState) (hb : s.buttonBrokenFlag = true)
    (ticks : List (Nat × Bool)) :
    (runButtonTicks s ticks).1.buttonBrokenFlag = true ∧
      ∀ r ∈ (runButtonTicks s ticks).2, r = false := by
  induction ticks generalizing s with
  | nil => exact ⟨hb, by simp [runButtonTicks]⟩
  | cons tk rest ih =>
    obtain ⟨m, p⟩ := tk
    have hstep : tickButton m p s = (s, false) := by simp [tickButton, hb]
    have ihs := ih s hb
    refine ⟨?_, ?_⟩
    · simpa [runButtonTicks, hstep] using ihs.1
    · intro r hr
      simp only [runButtonTicks, hstep] at hr
      rcases List.mem_cons.mp hr with h | h
      · exact h
      · exact ihs.2 r h

/-- Witness for C4: a broken button stays broken and reads released over a
released-then-pressed-again tick sequence. -/
theorem buttonBroken_sticky_witness :
    (⟨true, 0, true⟩ : BtnState).buttonBrokenFlag = true ∧
    ((runButtonTicks ⟨true, 0, true⟩
        [(0, true), (1000, false), (2000, true)]).1.buttonBrokenFlag = true ∧
      ∀ r ∈ (runButtonTicks ⟨true, 0, true⟩
        [(0, true), (1000, false), (2000, true)]).2, r = false) :=
  ⟨rfl, buttonBroken_sticky ⟨true, 0, true⟩ rfl [(0, true), (1000, false), (2000, true)]⟩

/-- C5 counterexample: the claim says a circuit whose `irrigationStartTime`
still holds the sentinel 0 (never started) may start immediately.  At the
first armed tick after boot (`millis() = 1000`, remote request pending, valve
closed, start time 0) the spec's guard permits the start but the code's tick
does not open the valve — there is no sentinel disjunct at main.ino:317, so
the very first start is delayed by the cooldown formula. -/
theorem first_start_not_immediate :
    startPermittedSpec 1000 0 true false = true ∧
    shutdownCondition 0 1000 7 false false false = false ∧
    (controlTick 1000 0 1000 7 false false false false false
      ⟨false, false, true, 0, 0, true, false⟩).1.valveOpen1 = false ∧
    (controlTick 1000 0 1000 7 false false false false false
      ⟨false, false, true, 0, 0, true, false⟩).1.remoteIrrigationPending1 = true := by
  decide

/-- C5 amended: while armed, a circuit with an asserted trigger and a closed
valve starts iff the 32-bit unsigned difference `now - irrigationStartTime`
is at least the effective irrigation duration plus the inter-irrigation
interval.  There is no never-started sentinel: with `irrigationStartTime`
initialized to 0, the very first start after boot is permitted only once
uptime reaches that sum. -/
theorem start_iff_cooldown_elapsed
    (now : Nat) (humidity temperature : Int) (voltage : ℚ)
    (closeReq bb1 bb2 btn1 btn2 : Bool) (s : CtrlState)
    (hd : shutdownCondition humidity temperature voltage closeReq bb1 bb2 = false)
    (ht : (btn1 || s.remoteIrrigationPending1) = true)
    (hv : s.valveOpen1 = false) :
    (controlTick now humidity temperature voltage closeReq bb1 bb2 btn1 btn2 s).1.valveOpen1
        = true ↔
      uDiff32 now s.irrigationStartTime1 ≥
        EFFECTIVE_IRRIGATION_TIME1 + TIME_BETWEEN_IRRIGATIONS1 := by
  by_cases hg : uDiff32 now s.irrigationStartTime1 ≥
      EFFECTIVE_IRRIGATION_TIME1 + TIME_BETWEEN_IRRIGATIONS1
  · simp only [controlTick, hd, ht, hv, hg, uDiff32, EFFECTIVE_IRRIGATION_TIME1,
      TIME_BETWEEN_IRRIGATIONS1] at hg ⊢
    simp [hg]
  · simp [controlTick, hd, ht, hv, hg]

/-- Witness for C5 amended: at uptime 9000 ms the pending remote request does
start circuit 1 (9000 = effective duration + interval). -/
theorem start_iff_cooldown_elapsed_witness :
    shutdownCondition 0 1000 7 false false false = false ∧
    (controlTick 9000 0 1000 7 false false false false false
      ⟨false, false, true, 0, 0, true, false⟩).1.valveOpen1 = true :=
  ⟨by decide,
    (start_iff_cooldown_elapsed 9000 0 1000 7 false false false false false
      ⟨false, false, true, 0, 0, true, false⟩ (by decide) (by decide) rfl).mpr (by decide)⟩

/-- C6: for every inbound byte batch in which the `CMT:` marker is found but
no non-empty sender is parsed (`cmtIndex` ends up 0), command dispatch is
skipped entirely and no request flag is set by that batch. -/
theorem malformed_frame_no_dispatch (bytes : List Nat) (gs : GsmState)
    (hm : strstrB markerBytes bytes = true)
    (hs : (bytes.foldl procByte (initPState gs)).cmtIndex = 0) :
    ((readSIM800Data bytes gs).1).flags = gs.flags := by
  simp [readSIM800Data, hs]

/-- Witness for C6: the batch `+CMT: "` contains the marker, parses no sender
character, and leaves every request flag clear. -/
theorem malformed_frame_no_dispatch_witness :
    strstrB markerBytes (strBytes "+CMT: \"") = true ∧
    ((readSIM800Data (strBytes "+CMT: \"") initialGsmState).1).flags
      = initialGsmState.flags :=
  ⟨by decide, malformed_frame_no_dispatch (strBytes "+CMT: \"") initialGsmState
    (by decide) (by decide)⟩

/-- C7: the claim says every write into the receive/sender/message buffers is
bounds-checked before it happens.  It is not: the parser loop at
main.ino:592-641 writes `bufferData[bufferIndex]` with no bound on
`bufferIndex`, so every batch longer than the 127-byte buffer performs an
out-of-bounds write (`bufferData[127]` onwards).  This theorem evaluates the
code's model on such batches: the out-of-bounds-write flag is raised for every
batch of more than `BUFFER_SIZE` bytes. -/
theorem bufferData_write_unchecked (bytes : List Nat) (gs : GsmState)
    (h : BUFFER_SIZE < bytes.length) :
    (readSIM800Data bytes gs).2 = true := by
  have hne : bytes ≠ [] := by
    intro he
    rw [he] at h
    simp [BUFFER_SIZE] at h
  have hoob := foldl_oob_overflow bytes (initPState gs) hne (by simpa [initPState] using h)
  simp only [readSIM800Data]
  split <;> exact hoob

/-- Witness for C7: a batch of 128 bytes overruns the 127-byte buffer. -/
theorem bufferData_write_unchecked_witness :
    BUFFER_SIZE < (List.replicate 128 65).length ∧
    (readSIM800Data (List.replicate 128 65) initialGsmState).2 = true :=
  ⟨by simp [BUFFER_SIZE], bufferData_write_unchecked (List.replicate 128 65)
    initialGsmState (by simp [BUFFER_SIZE])⟩

/-- C8: the claim says every duration comparison is computed as an unsigned
difference at the clock's native 32-bit width and is therefore correct across
wraparound.  The sampling-period check (main.ino:194-197) instead assigns the
32-bit unsigned difference to the 16-bit `int dt`: at `millis() = 65536` with
`prevMeasurementTime = 0` the true elapsed time is 65536 ms ≥ SAMPLE_TIME, yet
the code's check yields false (dt truncates to 0) and the tick is skipped.
This theorem evaluates the code's check at that failing input, next to the
correct unsigned difference. -/
theorem samplePeriodCheck_truncates :
    samplePeriodCheck 65536 0 = false ∧
    uDiff32 65536 0 ≥ 1000 ∧
    cooldownCheck 65536 0 = (decide (uDiff32 65536 0 ≥ 9000)) := by
  decide

set_option maxRecDepth 40000

/-- C9 counterexample: the claim says parsing the C9 byte sequence sets both
the irrigation-request flag for the matching circuit and the status-request
flag.  The code parses the sender but sets neither flag: the body
`RIEGO,MEASUREMENTS` contains none of the configured literals
(`ESTADO`, `RIEGO1`, `RIEGO2`, `CERRAR`). -/
theorem c9_sequence_sets_no_flags :
    ((readSIM800Data c9input initialGsmState).1).sender = strBytes "+34605521505" ∧
    ((readSIM800Data c9input initialGsmState).1).flags.remoteIrrigationPending1 = false ∧
    ((readSIM800Data c9input initialGsmState).1).flags.remoteIrrigationPending2 = false ∧
    ((readSIM800Data c9input initialGsmState).1).flags.sendMeasurements = false := by
  decide

/-- C9 amended: parsing the C9 byte sequence yields sender `+34605521505` and
dispatch runs, but no request flag is set — the message body (which does
contain `RIEGO`) matches none of the configured command literals `ESTADO`,
`RIEGO1`, `RIEGO2`, `CERRAR`, so neither remote irrigation nor a status reply
is triggered. -/
theorem c9_sequence_parse_result :
    ((readSIM800Data c9input initialGsmState).1).sender = strBytes "+34605521505" ∧
    ((readSIM800Data c9input initialGsmState).1).flags = ⟨false, false, false, false⟩ ∧
    strstrB (strBytes "RIEGO") ((readSIM800Data c9input initialGsmState).1).message
      = true ∧
    strstrB (strBytes "RIEGO1") ((readSIM800Data c9input initialGsmState).1).message
      = false ∧
    strstrB (strBytes "ESTADO") ((readSIM800Data c9input initialGsmState).1).message
      = false := by
  decide

/-- C10: the status reply, the irrigation confirmation and the relay-close
confirmation are all addressed to the stored `senderNum`; at startup
`senderNum` is initialized to the configured fallback phone number; and a
batch that contains no `CMT:` marker leaves the stored sender unchanged — so
a persistence-triggered periodic status report goes to whoever last sent a
parsed message, not necessarily the configured number. -/
theorem outbound_destinations_follow_stored_sender :
    senderNumInit = strBytes "+34605521505" ∧
    (∀ snd : List Nat, destMeasurementsSMS snd = snd) ∧
    (∀ (snd : List Nat) (n : Nat), destIrrigationConfirmationSMS snd n = snd) ∧
    (∀ snd : List Nat, destCloseRelayConfirmationSMS snd = snd) ∧
    (∀ (bytes : List Nat) (gs : GsmState), strstrB markerBytes bytes = false →
      ((readSIM800Data bytes gs).1).sender = gs.sender) := by
  refine ⟨rfl, fun _ => rfl, fun _ _ => rfl, fun _ => rfl, ?_⟩
  intro bytes gs hm
  have h := foldl_no_marker bytes (initPState gs) rfl rfl
    (by simpa [initPState] using hm)
  simp [readSIM800Data, h.2]
  exact h.1

/-- Witness for C10: a marker-free modem response batch leaves the stored
sender at its startup value, the configured phone number. -/
theorem outbound_destinations_follow_stored_sender_witness :
    strstrB markerBytes (strBytes "AT+CSQ OK") = false ∧
    ((readSIM800Data (strBytes "AT+CSQ OK") initialGsmState).1).sender
      = initialGsmState.sender :=
  ⟨by decide, outbound_destinations_follow_stored_sender.2.2.2.2
    (strBytes "AT+CSQ OK") initialGsmState (by decide)⟩

end Sim800
